import Mathlib

/-
Shallow embedding of the exercise-tracker web API (src/index.js).

The four Express route handlers are modelled as pure Lean functions.  The
external collaborators (the Mongo store via Mongoose, and the JS runtime's
Date machinery) are modelled as follows:

  * every store round-trip (findById, find, save) is passed to the handler
    as an explicit outcome of type `Except StoreErr _` (an `.error` models a
    rejected promise);
  * the JS `Date` constructor applied to a string is passed in as a
    parameter `parse : String → JsDate` (so theorems hold for any date
    parsing semantics); `new Date()` with no argument is `.valid now` for a
    clock value `now` supplied to the handler;
  * `Date.prototype.toDateString` is implemented concretely
    (`toDateString` below) following its specification: weekday name,
    month name, zero-padded day of month and year of the date, i.e. a
    rendering of the calendar day the timestamp falls in;
  * JS value coercions appearing in the source (`+limit`, `??`, string
    truthiness, array truthiness) are embedded explicitly
    (`jsUnaryPlus`, `jsNullish`, `jsTruthyOpt`, `arrayTruthy`).
-/

namespace ExerciseTracker

/-- A JS number as far as the handlers need it: NaN or an integral value
(the only numbers produced here are coerced `limit` values and durations). -/
inductive JsNum where
  | nan
  | num (v : Int)
deriving DecidableEq

/-- A JS `Date` value: either the Invalid Date or a timestamp in
milliseconds since the epoch (the model is restricted to dates from 1970
on, which covers every date the system manufactures). -/
inductive JsDate where
  | invalid
  | valid (ms : Nat)
deriving DecidableEq

/-- A JS value, as needed to evaluate the expression `+limit ?? 500` from
the logs handler: a query parameter is `undefined` when absent, a string
when given; unary plus produces a number. -/
inductive JsVal where
  | undef
  | vnum (n : JsNum)
  | vstr (s : String)
deriving DecidableEq

/-- Numeric value of a single decimal digit character. -/
def digitVal (c : Char) : Option Nat :=
  let n := c.toNat
  if 48 ≤ n ∧ n ≤ 57 then some (n - 48) else none

/-- Accumulating decimal evaluation of a digit list; `none` as soon as a
non-digit appears. -/
def digitsValAux : List Char → Nat → Option Nat
  | [], acc => some acc
  | c :: cs, acc =>
    match digitVal c with
    | some d => digitsValAux cs (acc * 10 + d)
    | none => none

/-- Decimal value of a non-empty all-digit character list. -/
def digitsVal (cs : List Char) : Option Nat :=
  match cs with
  | [] => none
  | _ => digitsValAux cs 0

/-- ASCII whitespace, as far as query/body strings can carry it. -/
def isWs (c : Char) : Bool :=
  c = ' ' ∨ c = '\t' ∨ c = '\n' ∨ c = '\r'

/-- Trim leading and trailing whitespace from a character list. -/
def trimChars (cs : List Char) : List Char :=
  ((cs.dropWhile isWs).reverse.dropWhile isWs).reverse

/-- JS `ToNumber` on strings, restricted to what the handlers can meet:
the empty/whitespace string is 0, optionally minus-signed decimal digit
strings are their value, everything else is NaN. -/
def strToNumber (s : String) : JsNum :=
  match trimChars s.data with
  | [] => .num 0
  | '-' :: rest =>
    match digitsVal rest with
    | some n => .num (-(n : Int))
    | none => .nan
  | t =>
    match digitsVal t with
    | some n => .num (n : Int)
    | none => .nan

/-- JS unary plus. `+undefined` is NaN; a string is coerced by ToNumber. -/
def jsUnaryPlus : JsVal → JsNum
  | .undef => .nan
  | .vnum n => n
  | .vstr s => strToNumber s

/-- The nullish-coalescing operator `x ?? y`: only null/undefined select
the fallback; every number, NaN included, is kept. -/
def jsNullish : JsVal → JsVal → JsVal
  | .undef, y => y
  | x, _ => x

/-- An absent query/body parameter is `undefined`, a supplied one is a
string. -/
def queryVal : Option String → JsVal
  | none => .undef
  | some s => .vstr s

/-- JS truthiness of an optional string parameter: `undefined` is falsy,
a string is truthy exactly when non-empty. -/
def jsTruthyOpt : Option String → Bool
  | none => false
  | some s => s != ""

/-- Day-of-month / weekday rendering helper: JS toDateString zero-pads the
day of month to two digits. -/
def pad2 (n : Nat) : String :=
  if n < 10 then "0" ++ toString n else toString n

/-- Weekday abbreviation from a day count since 1970-01-01 (a Thursday). -/
def weekdayName (z : Nat) : String :=
  match (z + 4) % 7 with
  | 0 => "Sun" | 1 => "Mon" | 2 => "Tue" | 3 => "Wed"
  | 4 => "Thu" | 5 => "Fri" | _ => "Sat"

/-- Month abbreviation, months numbered 1..12. -/
def monthName (m : Nat) : String :=
  match m with
  | 1 => "Jan" | 2 => "Feb" | 3 => "Mar" | 4 => "Apr"
  | 5 => "May" | 6 => "Jun" | 7 => "Jul" | 8 => "Aug"
  | 9 => "Sep" | 10 => "Oct" | 11 => "Nov" | _ => "Dec"

/-- Civil calendar date (year, month, day) from a day count since
1970-01-01, by the standard era decomposition of the Gregorian calendar. -/
def civilFromDays (z : Nat) : Nat × Nat × Nat :=
  let zd := z + 719468
  let era := zd / 146097
  let doe := zd % 146097
  let yoe := (doe - doe / 1460 + doe / 36524 - doe / 146096) / 365
  let y0 := yoe + era * 400
  let doy := doe - (365 * yoe + yoe / 4 - yoe / 100)
  let mp := (5 * doy + 2) / 153
  let d := doy - (153 * mp + 2) / 5 + 1
  let m := if mp < 10 then mp + 3 else mp - 9
  (if m ≤ 2 then y0 + 1 else y0, m, d)

/-- Day count since 1970-01-01 of a civil date (inverse of
`civilFromDays`), used by the model of the date-string parser. -/
def daysFromCivil (y m d : Nat) : Nat :=
  let y1 := if m ≤ 2 then y - 1 else y
  let era := y1 / 400
  let yoe := y1 % 400
  let doy := (153 * (if 2 < m then m - 3 else m + 9) + 2) / 5 + d - 1
  let doe := yoe * 365 + yoe / 4 - yoe / 100 + doy
  era * 146097 + doe - 719468

/-- `Date.prototype.toDateString`: "Invalid Date" for the invalid date,
otherwise weekday, month, zero-padded day of month and year of the
calendar day the timestamp falls in (86400000 ms per day). -/
def toDateString : JsDate → String
  | .invalid => "Invalid Date"
  | .valid ms =>
    let z := ms / 86400000
    let c := civilFromDays z
    weekdayName z ++ " " ++ monthName c.2.1 ++ " " ++ pad2 c.2.2
      ++ " " ++ toString c.1

/-- Split a character list into the dash-separated groups of characters
(the field groups of an ISO calendar date). -/
def splitDash : List Char → List (List Char)
  | [] => [[]]
  | c :: cs =>
    let r := splitDash cs
    if c = '-' then [] :: r
    else
      match r with
      | [] => [[c]]
      | g :: gs => (c :: g) :: gs

/-- A concrete model of the JS `Date` constructor on a date string,
accepting ISO calendar dates "YYYY-MM-DD" (from 1970 on) and yielding the
Invalid Date on anything else.  Handler theorems are stated for an
arbitrary `parse`; this instance is used to evaluate them on concrete
inputs. -/
def jsNewDate (s : String) : JsDate :=
  match (splitDash s.data).map digitsVal with
  | [some y, some m, some d] =>
    if 1 ≤ m ∧ m ≤ 12 ∧ 1 ≤ d ∧ d ≤ 31 ∧ 1970 ≤ y then
      .valid (daysFromCivil y m d * 86400000)
    else .invalid
  | _ => .invalid

/-- A generic store failure (a rejected promise from a Mongoose call). -/
inductive StoreErr where
  | failure
deriving DecidableEq

/-- A User record as stored: generated id and the username. -/
structure User where
  _id : String
  username : String
deriving DecidableEq

/-- An Exercise record as stored (Exercise schema of src/index.js):
owning user id, description, duration (schema type Number), date. -/
structure Exercise where
  userId : String
  description : String
  duration : JsNum
  date : JsDate
deriving DecidableEq

/-- A transport-level response: either `rsp.send` of a plain text or
`rsp.json` of a payload. -/
inductive Resp (α : Type) where
  | send (s : String)
  | json (v : α)
deriving DecidableEq

/-- Outcome of the POST /api/users handler: on a successful save it
responds with the stored user as JSON; on a save failure the catch block
only logs server-side and sends no response at all. -/
inductive CreateUserOutcome where
  | json (u : User)
  | logOnly
deriving DecidableEq

/-- POST /api/users (src/index.js lines 45-60).  `saveResult` is the
outcome of `userObj.save()`. -/
def createUserHandler (saveResult : Except StoreErr User) : CreateUserOutcome :=
  match saveResult with
  | .ok u => .json u
  | .error _ => .logOnly

/-- In JS the result of `User.find({})` is an array object, and an object
is always truthy, even an empty array; so the `!users` test in the list
handler can never select the "no users" branch. -/
def arrayTruthy (_ : List User) : Bool := true

/-- GET /api/users (src/index.js lines 64-75).  There is no try/catch, so
a store failure (`.error`) propagates past the handler unhandled. -/
def listUsersHandler (findResult : Except StoreErr (List User)) :
    Except StoreErr (Resp (List User)) :=
  match findResult with
  | .error e => .error e
  | .ok users =>
    if !(arrayTruthy users) then .ok (.send "no users") else .ok (.json users)

/-- The form fields of an append-exercise request
(`const { description, duration, date } = req.body`); `date` is optional. -/
structure ExerciseBody where
  description : String
  duration : String
  date : Option String
deriving DecidableEq

/-- The `date` stored on a new Exercise:
`date ? new Date(date) : new Date()` — a truthy (non-empty) date field is
parsed, an absent or empty one yields the current moment. -/
def exerciseDateOf (parse : String → JsDate) (now : Nat) :
    Option String → JsDate
  | none => .valid now
  | some s => if s != "" then parse s else .valid now

/-- The JSON payload returned by a successful append-exercise request. -/
structure ExerciseOut where
  _id : String
  username : String
  description : String
  duration : JsNum
  date : String
deriving DecidableEq

/-- Result of the append-exercise handler: the transport response together
with the Exercise record persisted on this path (`none` when nothing was
saved). -/
structure AppendResult where
  resp : Resp ExerciseOut
  saved : Option Exercise
deriving DecidableEq

/-- POST /api/users/:_id/exercises (src/index.js lines 79-121).
`findUser` is the outcome of `User.findById(id)` and `saveResult` that of
`exerciseObj.save()`; both calls sit inside the try, so their failures are
caught and answered with the text "there was an error".  A missing user is
answered with "could not find user" before any Exercise is constructed. -/
def appendExerciseHandler (parse : String → JsDate) (now : Nat)
    (id : String) (body : ExerciseBody)
    (findUser : Except StoreErr (Option User))
    (saveResult : Except StoreErr Unit) : AppendResult :=
  match findUser with
  | .error _ => { resp := .send "there was an error", saved := none }
  | .ok none => { resp := .send "could not find user", saved := none }
  | .ok (some user) =>
    let ex : Exercise :=
      { userId := user._id
      , description := body.description
      , duration := strToNumber body.duration
      , date := exerciseDateOf parse now body.date }
    match saveResult with
    | .error _ => { resp := .send "there was an error", saved := none }
    | .ok _ =>
      { resp := .json
          { _id := user._id
          , username := user.username
          , description := ex.description
          , duration := ex.duration
          , date := toDateString ex.date }
      , saved := some ex }

/-- The date clause of the Mongo filter: `$gte` / `$lte` are MongoDB's
inclusive lower/upper bound comparators. -/
structure DateFilter where
  gte : Option JsDate
  lte : Option JsDate
deriving DecidableEq

/-- The Mongo filter passed to `Exercise.find`: always the user id, plus
the date clause when one was built. -/
structure MongoFilter where
  userId : String
  date : Option DateFilter
deriving DecidableEq

/-- The `dateObj` built by the logs handler (src/index.js lines 142-152):
a `$gte` bound from a truthy `from`, a `$lte` bound from a truthy `to`. -/
def buildDateObj (parse : String → JsDate) (fromP toP : Option String) :
    DateFilter :=
  { gte := if jsTruthyOpt fromP then some (parse (fromP.getD "")) else none
  , lte := if jsTruthyOpt toP then some (parse (toP.getD "")) else none }

/-- The filter built by the logs handler (src/index.js lines 155-162):
the user id always; the date clause only when `from || to` is truthy. -/
def buildFilter (parse : String → JsDate) (id : String)
    (fromP toP : Option String) : MongoFilter :=
  { userId := id
  , date :=
      if jsTruthyOpt fromP || jsTruthyOpt toP then
        some (buildDateObj parse fromP toP)
      else none }

/-- The result cap handed to `.limit(...)`: the embedding of the source
expression `+limit ?? 500` (src/index.js line 165). -/
def limitCap (limitP : Option String) : JsVal :=
  jsNullish (.vnum (jsUnaryPlus (queryVal limitP))) (.vnum (.num 500))

/-- One element of the `log` array: the projection
`{description, duration, date: i.date.toDateString()}` applied to a stored
Exercise (src/index.js lines 168-172). -/
structure LogEntry where
  description : String
  duration : JsNum
  date : String
deriving DecidableEq

/-- The projection applied to each found Exercise when building `log`. -/
def logEntryOf (i : Exercise) : LogEntry :=
  { description := i.description
  , duration := i.duration
  , date := toDateString i.date }

/-- The JSON payload of a successful logs request. -/
structure LogsOut where
  username : String
  count : Nat
  _id : String
  log : List LogEntry
deriving DecidableEq

/-- GET /api/users/:_id/logs (src/index.js lines 125-181).  `findUser` is
the outcome of `User.findById(id)` and `findExercises` that of
`Exercise.find(filter).limit(cap)`, given the filter and cap the handler
builds.  The handler has no try/catch, so either store failure propagates
past it unhandled (`.error`). -/
def logsHandler (parse : String → JsDate) (id : String)
    (fromP toP limitP : Option String)
    (findUser : Except StoreErr (Option User))
    (findExercises : MongoFilter → JsVal → Except StoreErr (List Exercise)) :
    Except StoreErr (Resp LogsOut) :=
  match findUser with
  | .error e => .error e
  | .ok none => .ok (.send "could not find user")
  | .ok (some user) =>
    match findExercises (buildFilter parse id fromP toP) (limitCap limitP) with
    | .error e => .error e
    | .ok exercises =>
      .ok (.json
        { username := user.username
        , count := exercises.length
        , _id := user._id
        , log := exercises.map logEntryOf })

/-- Claim C1: the source expression `+limit ?? 500` never produces the
documented default of 500: with no `limit` parameter the cap handed to the
store is NaN (`+undefined`), with a non-numeric `limit` it is NaN as well,
and with `limit=0` it is 0 — in every one of these cases the claim (and
the code's own comment "or 500 for null") prescribes 500, but the nullish
fallback cannot fire because a number, NaN included, is never nullish.
Only a genuinely numeric non-zero limit behaves as claimed. -/
theorem limit_cap_never_defaults_eval :
    limitCap none = .vnum .nan ∧
    limitCap (some "abc") = .vnum .nan ∧
    limitCap (some "0") = .vnum (.num 0) ∧
    limitCap (some "7") = .vnum (.num 7) := by
  refine ⟨rfl, ?_, ?_, ?_⟩ <;> decide

/-- Claim C2: the filter built for a logs query always constrains
`userId` to the given id; a present (truthy, i.e. supplied non-empty —
the empty-string case is claim C10) `from` contributes an inclusive
`$gte` bound on `date` holding its parse, a present `to` an inclusive
`$lte` bound, and with neither `from` nor `to` the filter carries no date
clause at all. -/
theorem logs_filter_shape (parse : String → JsDate) (id : String)
    (fromP toP : Option String) :
    (buildFilter parse id fromP toP).userId = id ∧
    (∀ s, fromP = some s → s ≠ "" →
      ∃ df, (buildFilter parse id fromP toP).date = some df ∧
        df.gte = some (parse s)) ∧
    (∀ s, toP = some s → s ≠ "" →
      ∃ df, (buildFilter parse id fromP toP).date = some df ∧
        df.lte = some (parse s)) ∧
    (fromP = none → toP = none →
      (buildFilter parse id fromP toP).date = none) := by
  refine ⟨rfl, ?_, ?_, ?_⟩
  · intro s hs hne
    subst hs
    simp [buildFilter, buildDateObj, jsTruthyOpt, hne]
  · intro s hs hne
    subst hs
    simp [buildFilter, buildDateObj, jsTruthyOpt, hne]
  · intro h1 h2
    subst h1; subst h2
    simp [buildFilter, jsTruthyOpt]

/-- Witness for C2, at a concrete query: `from=2020-01-01` with no `to`
yields a filter on the right user with a `$gte` clause holding the parsed
date, and a query with neither bound yields no date clause. -/
theorem logs_filter_shape_w :
    (buildFilter jsNewDate "u1" (some "2020-01-01") none).userId = "u1" ∧
    (∃ df,
      (buildFilter jsNewDate "u1" (some "2020-01-01") none).date = some df ∧
      df.gte = some (jsNewDate "2020-01-01")) ∧
    (buildFilter jsNewDate "u1" none none).date = none := by
  have h := logs_filter_shape jsNewDate "u1" (some "2020-01-01") none
  have h0 := logs_filter_shape jsNewDate "u1" none none
  exact ⟨h.1, h.2.1 "2020-01-01" rfl (by decide), h0.2.2.2 rfl rfl⟩

/-- Claim C3, counterexample: the logs handler has no try/catch, so a
store failure in the user lookup propagates unhandled past the handler —
refuting "no store-failure outcome propagates unhandled" at this concrete
input. -/
theorem logs_store_failure_propagates :
    logsHandler jsNewDate "u1" none none none (.error .failure)
      (fun _ _ => .ok []) = .error .failure := rfl

/-- Claim C3, amended: only the two POST handlers catch store failures —
create-user by logging server-side and sending no response, and
append-exercise by answering the text "there was an error" — while the two
GET handlers (list users, logs) have no try/catch, so a store failure
there propagates unhandled past the handler. -/
theorem handlers_error_policy (parse : String → JsDate) (now : Nat)
    (id : String) (body : ExerciseBody) (fromP toP limitP : Option String)
    (u : User)
    (fe : MongoFilter → JsVal → Except StoreErr (List Exercise)) :
    createUserHandler (.error .failure) = .logOnly ∧
    (appendExerciseHandler parse now id body (.error .failure)
      (.ok ())).resp = .send "there was an error" ∧
    (appendExerciseHandler parse now id body (.ok (some u))
      (.error .failure)).resp = .send "there was an error" ∧
    listUsersHandler (.error .failure) = .error .failure ∧
    logsHandler parse id fromP toP limitP (.error .failure) fe
      = .error .failure ∧
    logsHandler parse id fromP toP limitP (.ok (some u))
      (fun _ _ => .error .failure) = .error .failure :=
  ⟨rfl, rfl, rfl, rfl, rfl, rfl⟩

/-- Claim C4: when the user lookup resolves to no user, append-exercise
answers with the text "could not find user" and no Exercise record is
constructed or persisted, whatever the body and whatever the save oracle
would have done. -/
theorem append_missing_user_no_record (parse : String → JsDate) (now : Nat)
    (id : String) (body : ExerciseBody) (saveResult : Except StoreErr Unit) :
    appendExerciseHandler parse now id body (.ok none) saveResult
      = { resp := .send "could not find user", saved := none } := rfl

/-- Claim C5: on an existing user, the stored Exercise's date is the
moment of handling (`new Date()`, i.e. `.valid now`) when the caller
passes no date, and the parse of the caller-supplied date text when a
(non-empty — the empty-string case is claim C9) date is passed. -/
theorem append_date_semantics (parse : String → JsDate) (now : Nat)
    (id desc dur : String) (u : User) (dateB : Option String) :
    (dateB = none →
      (appendExerciseHandler parse now id ⟨desc, dur, dateB⟩
        (.ok (some u)) (.ok ())).saved.map Exercise.date
        = some (.valid now)) ∧
    (∀ s, dateB = some s → s ≠ "" →
      (appendExerciseHandler parse now id ⟨desc, dur, dateB⟩
        (.ok (some u)) (.ok ())).saved.map Exercise.date
        = some (parse s)) := by
  constructor
  · intro h
    subst h
    simp [appendExerciseHandler, exerciseDateOf]
  · intro s hs hne
    subst hs
    simp [appendExerciseHandler, exerciseDateOf, hne]

/-- Witness for C5, at concrete inputs: date "2020-01-01" is stored
parsed, an absent date is stored as the handling moment (clock 0 here). -/
theorem append_date_semantics_w :
    ((appendExerciseHandler jsNewDate 0 "u1" ⟨"run", "5", some "2020-01-01"⟩
      (.ok (some ⟨"u1", "alice"⟩)) (.ok ())).saved.map Exercise.date
      = some (jsNewDate "2020-01-01")) ∧
    ((appendExerciseHandler jsNewDate 0 "u1" ⟨"run", "5", none⟩
      (.ok (some ⟨"u1", "alice"⟩)) (.ok ())).saved.map Exercise.date
      = some (.valid 0)) := by
  have h1 := append_date_semantics jsNewDate 0 "u1" "run" "5"
    ⟨"u1", "alice"⟩ (some "2020-01-01")
  have h2 := append_date_semantics jsNewDate 0 "u1" "run" "5"
    ⟨"u1", "alice"⟩ none
  exact ⟨h1.2 "2020-01-01" rfl (by decide), h2.1 rfl⟩

/-- Claim C6: for an existing user the logs handler answers with JSON
carrying the user's username and id, the mapped log, and a `count` equal
to the length of that log (the store's result list mapped through the
projection preserves length); in particular with zero exercises it
answers count 0 and an empty log — a JSON answer, never the "could not
find user" text. -/
theorem logs_summary_shape (parse : String → JsDate) (id : String)
    (fromP toP limitP : Option String) (u : User) (exs : List Exercise) :
    (logsHandler parse id fromP toP limitP (.ok (some u))
      (fun _ _ => .ok exs)
      = .ok (.json
        { username := u.username
        , count := (exs.map logEntryOf).length
        , _id := u._id
        , log := exs.map logEntryOf })) ∧
    (logsHandler parse id fromP toP limitP (.ok (some u))
      (fun _ _ => .ok [])
      = .ok (.json
        { username := u.username, count := 0, _id := u._id, log := [] })) := by
  constructor
  · simp [logsHandler]
  · rfl

/-- Claim C7: with no User records in the store, the list-users handler
responds with the empty JSON sequence — the "no users" text branch is
unreachable because an array, even empty, is truthy in JS. -/
theorem list_users_empty_is_json :
    listUsersHandler (.ok []) = .ok (.json []) := rfl

/-- Claim C8: the `date` string of a log entry depends only on the
calendar day of the stored date — two valid stored dates falling in the
same day (same count of 86400000 ms periods since the epoch) produce the
identical response string, whatever their time-of-day components. -/
theorem log_date_day_only (e1 e2 : Exercise) (t1 t2 : Nat)
    (h1 : e1.date = .valid t1) (h2 : e2.date = .valid t2)
    (hday : t1 / 86400000 = t2 / 86400000) :
    (logEntryOf e1).date = (logEntryOf e2).date := by
  simp only [logEntryOf]
  rw [h1, h2]
  simp only [toDateString]
  rw [hday]

/-- Witness for C8: midnight and 01:00 of 1970-01-01 render to the same
date string. -/
theorem log_date_day_only_w :
    (logEntryOf ⟨"u1", "run", .num 5, .valid 0⟩).date
      = (logEntryOf ⟨"u1", "run", .num 5, .valid 3600000⟩).date :=
  log_date_day_only _ _ 0 3600000 rfl rfl (by decide)

/-- Claim C9: an empty-string `date` form field is falsy, so
append-exercise treats it exactly like an absent date: the whole handler
result coincides with the no-date result for every store outcome, and the
stored date is the moment of handling. -/
theorem append_empty_date_like_absent (parse : String → JsDate) (now : Nat)
    (id desc dur : String) (fu : Except StoreErr (Option User))
    (sr : Except StoreErr Unit) (u : User) :
    (appendExerciseHandler parse now id ⟨desc, dur, some ""⟩ fu sr
      = appendExerciseHandler parse now id ⟨desc, dur, none⟩ fu sr) ∧
    ((appendExerciseHandler parse now id ⟨desc, dur, some ""⟩
      (.ok (some u)) (.ok ())).saved.map Exercise.date
      = some (.valid now)) := by
  constructor
  · cases fu with
    | error e => rfl
    | ok o =>
      cases o with
      | none => rfl
      | some v => cases sr <;> rfl
  · rfl

/-- Claim C10: empty-string `from` / `to` query parameters are falsy, so
they contribute no date bound: the built filter coincides with the one for
the absent parameter, and with both empty no date clause is added at
all. -/
theorem logs_empty_range_like_absent (parse : String → JsDate) (id : String)
    (fromP toP : Option String) :
    (buildFilter parse id (some "") toP = buildFilter parse id none toP) ∧
    (buildFilter parse id fromP (some "") = buildFilter parse id fromP none) ∧
    ((buildFilter parse id (some "") (some "")).date = none) :=
  ⟨rfl, rfl, rfl⟩

end ExerciseTracker
